import Mathlib

/-!
Verification of the ShaderProj render-graph engine against its
natural-language specification.

The definitions below are a shallow embedding of the C++ sources:

* `ImageState`, `g_ImageStates`, `ImageBarrier` — `src/Image.cpp`
* `BufferState`, `g_BufferStates`, `BufferBarrier` — `src/Buffer.cpp`
* `CreateCommittedBuffer`, `CreateCommittedImage` — `src/Buffer.cpp`, `src/Image.cpp`
* `ShProgram.load` — `ShProgram::Load` in `src/ShProgram.cpp`
* `resolveInput`, `findBufferSource` — `ShRenderpass::CreateBindingSets` in `src/ShRenderpass.cpp`
* `CompileShaderFn` — `CompileShader` in `src/Compiler.cpp`
* `crossfadeFactor`, `Animate`, `NextProgram`, `SetScript`, `LoadScript`,
  `RenderTimeUpdate`, swap-chain layout tracking — `src/ShaderProj.cpp`

Machine integers do not overflow in any modelled computation (indices stay
tiny), so they are embedded as `Nat`/`Int`; `float`/`double` arithmetic on
times and fade factors is embedded as exact `ℚ` arithmetic.  Vulkan stage
masks, access masks, and image layouts are embedded as their numeric values
from the Vulkan headers.
-/

/-! ### Image and buffer states (`src/Image.cpp`, `src/Buffer.cpp`) -/

/-- `enum class ImageState` from `ShaderProj.h`. -/
inductive ImageState where
  | Undefined
  | Present
  | ShaderResource
  | RenderTarget
  | TransferSrc
  | TransferDst
deriving DecidableEq

/-- `struct ImageStateMapping` from `Image.cpp`: one row of the state table. -/
structure ImageStateMapping where
  stageMask : Nat
  accessMask : Nat
  layout : Nat
deriving DecidableEq

/-- The `g_ImageStates` table from `Image.cpp`, with the numeric values of the
Vulkan flags: stage masks eTopOfPipe = 0x1, eTransfer = 0x1000,
eFragmentShader = 0x80, eColorAttachmentOutput = 0x400; access masks
eNoneKHR = 0, eTransferRead = 0x800, eShaderRead = 0x20,
eColorAttachmentWrite = 0x100, eTransferWrite = 0x1000; layouts
eUndefined = 0, ePresentSrcKHR = 1000001002, eShaderReadOnlyOptimal = 5,
eColorAttachmentOptimal = 2, eTransferSrcOptimal = 6, eTransferDstOptimal = 7. -/
def g_ImageStates : ImageState → ImageStateMapping
  | .Undefined => ⟨0x1, 0, 0⟩
  | .Present => ⟨0x1000, 0x800, 1000001002⟩
  | .ShaderResource => ⟨0x80, 0x20, 5⟩
  | .RenderTarget => ⟨0x400, 0x100, 2⟩
  | .TransferSrc => ⟨0x1000, 0x800, 6⟩
  | .TransferDst => ⟨0x1000, 0x1000, 7⟩

/-- The parameters of the single `vkCmdPipelineBarrier` call emitted by
`ImageBarrier` in `Image.cpp`. -/
structure ImageBarrierParams where
  srcStageMask : Nat
  dstStageMask : Nat
  srcAccessMask : Nat
  dstAccessMask : Nat
  oldLayout : Nat
  newLayout : Nat
deriving DecidableEq

/-- `ImageBarrier` from `Image.cpp`: the source side of the barrier comes from
the table row of `before`, the destination side from the table row of
`after`. -/
def ImageBarrier (before after : ImageState) : ImageBarrierParams :=
  ⟨(g_ImageStates before).stageMask, (g_ImageStates after).stageMask,
   (g_ImageStates before).accessMask, (g_ImageStates after).accessMask,
   (g_ImageStates before).layout, (g_ImageStates after).layout⟩

/-- `enum class BufferState` from `ShaderProj.h`. -/
inductive BufferState where
  | Undefined
  | TransferSrc
  | TransferDst
deriving DecidableEq

/-- One row of the `g_BufferStates` table from `Buffer.cpp`. -/
structure BufferStateMapping where
  stageMask : Nat
  accessMask : Nat
deriving DecidableEq

/-- The `g_BufferStates` table from `Buffer.cpp`. -/
def g_BufferStates : BufferState → BufferStateMapping
  | .Undefined => ⟨0x1, 0⟩
  | .TransferSrc => ⟨0x1000, 0x800⟩
  | .TransferDst => ⟨0x1000, 0x1000⟩

/-- The parameters of the `vkCmdPipelineBarrier` call emitted by
`BufferBarrier` in `Buffer.cpp`. -/
structure BufferBarrierParams where
  srcStageMask : Nat
  dstStageMask : Nat
  srcAccessMask : Nat
  dstAccessMask : Nat
deriving DecidableEq

/-- `BufferBarrier` from `Buffer.cpp`. -/
def BufferBarrier (before after : BufferState) : BufferBarrierParams :=
  ⟨(g_BufferStates before).stageMask, (g_BufferStates after).stageMask,
   (g_BufferStates before).accessMask, (g_BufferStates after).accessMask⟩

/-- C2: for every pair of image states, emitting `ImageBarrier before after`
followed by `ImageBarrier after before` restores the original
(stage mask, access mask, layout) triple: the destination side of the second
barrier equals the source side of the first, and symmetrically, because both
sides are pure lookups in `g_ImageStates`; likewise for `BufferBarrier` and
`g_BufferStates` (which carry no layout). -/
theorem barrier_roundtrip_restores_state (before after : ImageState)
    (b a : BufferState) :
    (ImageBarrier after before).dstStageMask = (ImageBarrier before after).srcStageMask
    ∧ (ImageBarrier after before).dstAccessMask = (ImageBarrier before after).srcAccessMask
    ∧ (ImageBarrier after before).newLayout = (ImageBarrier before after).oldLayout
    ∧ (ImageBarrier after before).srcStageMask = (ImageBarrier before after).dstStageMask
    ∧ (ImageBarrier after before).srcAccessMask = (ImageBarrier before after).dstAccessMask
    ∧ (ImageBarrier after before).oldLayout = (ImageBarrier before after).newLayout
    ∧ (BufferBarrier a b).dstStageMask = (BufferBarrier b a).srcStageMask
    ∧ (BufferBarrier a b).dstAccessMask = (BufferBarrier b a).srcAccessMask
    ∧ (BufferBarrier a b).srcStageMask = (BufferBarrier b a).dstStageMask
    ∧ (BufferBarrier a b).srcAccessMask = (BufferBarrier b a).dstAccessMask :=
  ⟨rfl, rfl, rfl, rfl, rfl, rfl, rfl, rfl, rfl, rfl⟩

/-! ### Pass and program declarations (`src/ShProgram.cpp`, `src/ShRenderpass.cpp`) -/

/-- One entry of a pass node's `inputs` array in a program description file. -/
structure InputNode where
  channel : Nat
  inputType : String
  id : String
  filepath : String
deriving DecidableEq

/-- One node of the `renderpass` array of a program description file:
its `type`, `outputs[0].id`, `inputs`, and `code` fields. -/
structure PassDecl where
  declType : String
  outputId : String
  inputs : List InputNode
  code : String
deriving DecidableEq

/-- The part of `ShRenderpass` state relevant to dependency resolution:
the constructor stores `m_OutputId = declaration.outputs[0].id` and the
declared inputs. -/
structure ShRenderpass where
  outputId : String
  inputs : List InputNode
deriving DecidableEq

/-- The `ShRenderpass` constructor, restricted to the fields above. -/
def mkRenderpass (node : PassDecl) : ShRenderpass :=
  ⟨node.outputId, node.inputs⟩

/-- The result of a successful `ShProgram::Load`: `m_Passes`,
`m_ImagePassIndex`, and `m_CommonSourcePath`. -/
structure ShProgram where
  passes : List ShRenderpass
  imagePassIndex : Nat
  commonSourcePath : Option String
deriving DecidableEq

/-- The loop state of `ShProgram::Load` while iterating the `renderpass`
nodes: the buffer passes collected so far, the `imagePass` local, and the
common source path. -/
structure LoadState where
  passes : List ShRenderpass
  imagePass : Option ShRenderpass
  commonSourcePath : Option String
deriving DecidableEq

/-- One iteration of the node loop in `ShProgram::Load`: a `buffer` node is
appended to `m_Passes`, an `image` node overwrites the `imagePass` local, a
`common` node records the shared source path, anything else is ignored. -/
def loadStep (st : LoadState) (node : PassDecl) : LoadState :=
  if node.declType = "buffer" ∨ node.declType = "image" then
    let pass := mkRenderpass node
    if node.declType = "image" then { st with imagePass := some pass }
    else { st with passes := st.passes ++ [pass] }
  else if node.declType = "common" then
    { st with commonSourcePath := some node.code }
  else st

/-- `ShProgram::Load`, applied to the parsed list of `renderpass` nodes:
iterate the loop, then fail with the logged error if no `image` node was
seen, otherwise append the image pass at the end of `m_Passes` and record
its index. -/
def ShProgram.load (nodes : List PassDecl) : Except String ShProgram :=
  let st := nodes.foldl loadStep ⟨[], none, none⟩
  match st.imagePass with
  | none => .error "program has no image type pass"
  | some ip => .ok ⟨st.passes ++ [ip], st.passes.length, st.commonSourcePath⟩

/-! ### Binding-set creation (`ShRenderpass::CreateBindingSets`) -/

/-- `c_HistoryLength` from `ShaderProj.h`. -/
def c_HistoryLength : Nat := 2

/-- `m_FrameIndex % c_HistoryLength`, the history index computed at the top
of `ShaderProj::Render`. -/
def historyIndex (frameIndex : Nat) : Nat :=
  frameIndex % c_HistoryLength

/-- The extents of a loaded static input image (`m_StaticInputs[channel]`). -/
structure StaticImage where
  width : Nat
  height : Nat
  depth : Nat
deriving DecidableEq

/-- The image view a pass input channel ends up bound to in
`CreateBindingSets`. -/
inductive BoundView where
  | dummyTexture
  | dummyCubemap
  | dummyVolume
  | staticImageView (channel : Nat)
  | poolImage (slot : Nat)
deriving DecidableEq

/-- The inner loop of `CreateBindingSets` that searches `passes` for the
first pass whose `m_OutputId` equals the input's buffer id, returning its
index. -/
def findBufferSource (passes : List ShRenderpass) (bufferId : String) : Option Nat :=
  passes.findIdx? (fun p => p.outputId = bufferId)

/-- The outcome of `CreateBindingSets` for one declared input channel: the
bound view, the `iChannelResolution` push-constant value recorded for the
channel, and whether the unresolved-buffer error was logged. -/
structure ChannelBinding where
  view : BoundView
  resolution : Nat × Nat × Nat
  loggedError : Bool
deriving DecidableEq

/-- The per-input body of `CreateBindingSets` in `ShRenderpass.cpp` for
descriptor-set parity `frame`: a loaded static input wins; otherwise
`cubemap` and `volume` inputs fall back to the dummy cubemap and volume; a
`buffer` input searches the program's passes for the output id and picks
pool slot `passIndex * 2 + sourceFrame` where `sourceFrame` is the opposite
parity exactly when the source pass is this pass itself; an unresolved
buffer id logs an error and leaves the channel on the default dummy texture
with its recorded resolution still zero. -/
def resolveInput (commonWidth commonHeight : Nat)
    (staticInputs : Nat → Option StaticImage)
    (passes : List ShRenderpass) (selfIndex : Nat) (frame : Nat)
    (node : InputNode) : ChannelBinding :=
  match staticInputs node.channel with
  | some img => ⟨.staticImageView node.channel, (img.width, img.height, img.depth), false⟩
  | none =>
    if node.inputType = "cubemap" then ⟨.dummyCubemap, (0, 0, 0), false⟩
    else if node.inputType = "volume" then ⟨.dummyVolume, (0, 0, 0), false⟩
    else if node.inputType = "buffer" then
      match findBufferSource passes node.id with
      | some passIndex =>
        let sourceFrame := if passIndex = selfIndex then 1 - frame else frame
        ⟨.poolImage (passIndex * 2 + sourceFrame), (commonWidth, commonHeight, 1), false⟩
      | none => ⟨.dummyTexture, (0, 0, 0), true⟩
    else ⟨.dummyTexture, (0, 0, 0), false⟩

/-- `m_RenderTargetIndices[frame] = outputIndex * 2 + frame` at the end of
`CreateBindingSets`. -/
def renderTargetIndex (outputIndex frame : Nat) : Nat :=
  outputIndex * 2 + frame

/-- `finalBufferIndex` computed in the blit section of `ShaderProj::Render`:
`GetImagePassIndex() * c_HistoryLength + historyIndex`. -/
def finalBufferIndex (prog : ShProgram) (frameIndex : Nat) : Nat :=
  prog.imagePassIndex * c_HistoryLength + historyIndex frameIndex

/-- C1: the history index used for pass execution in `ShaderProj::Render` is
`m_FrameIndex % 2`, and in `CreateBindingSets` a buffer input whose id
resolves to the pass's own output (the matching pass is the pass itself,
at `selfIndex`) is bound, in the descriptor set of parity `frame`, to pool
slot `selfIndex * 2 + (1 - frame)` — the opposite parity — while an input
resolving to a different pass's output at index `i` is bound to slot
`i * 2 + frame` — the same parity. -/
theorem history_parity_and_feedback_binding
    (frameIndex commonWidth commonHeight : Nat)
    (staticInputs : Nat → Option StaticImage)
    (passes : List ShRenderpass) (selfIndex frame : Nat)
    (node : InputNode) (i : Nat)
    (hframe : frame < 2)
    (hstatic : staticInputs node.channel = none)
    (htype : node.inputType = "buffer")
    (hfind : findBufferSource passes node.id = some i) :
    historyIndex frameIndex = frameIndex % 2
    ∧ (i = selfIndex →
        (resolveInput commonWidth commonHeight staticInputs passes selfIndex frame node).view
          = .poolImage (selfIndex * 2 + (1 - frame))
        ∧ (selfIndex * 2 + (1 - frame)) % 2 = 1 - frame)
    ∧ (i ≠ selfIndex →
        (resolveInput commonWidth commonHeight staticInputs passes selfIndex frame node).view
          = .poolImage (i * 2 + frame)
        ∧ (i * 2 + frame) % 2 = frame) := by
  refine ⟨rfl, fun h => ⟨?_, by omega⟩, fun h => ⟨?_, by omega⟩⟩ <;>
    simp [resolveInput, hstatic, htype, hfind, h]

/-- Witness for C1 at concrete inputs: a two-pass program with output ids
"A" and "B", the second pass reading its own output "B" on channel 0, at
descriptor parity 0. -/
theorem history_parity_and_feedback_binding_witness :
    (0 : Nat) < 2
    ∧ findBufferSource [⟨"A", []⟩, ⟨"B", []⟩] (InputNode.mk 0 "buffer" "B" "").id = some 1
    ∧ (historyIndex 5 = 5 % 2
      ∧ (1 = 1 →
          (resolveInput 640 480 (fun _ => none) [⟨"A", []⟩, ⟨"B", []⟩] 1 0
              (InputNode.mk 0 "buffer" "B" "")).view = .poolImage (1 * 2 + (1 - 0))
          ∧ (1 * 2 + (1 - 0)) % 2 = 1 - 0)
      ∧ (1 ≠ 1 →
          (resolveInput 640 480 (fun _ => none) [⟨"A", []⟩, ⟨"B", []⟩] 1 0
              (InputNode.mk 0 "buffer" "B" "")).view = .poolImage (1 * 2 + 0)
          ∧ (1 * 2 + 0) % 2 = 0)) :=
  ⟨by decide, by decide,
   history_parity_and_feedback_binding 5 640 480 (fun _ => none)
     [⟨"A", []⟩, ⟨"B", []⟩] 1 0 (InputNode.mk 0 "buffer" "B" "") 1
     (by decide) rfl rfl (by decide)⟩

/-- C8: a buffer input whose id matches no pass's output id in the program
is bound to the dummy (zero-valued placeholder) texture, its recorded
channel resolution stays `(0, 0, 0)`, and the unresolved dependency is
logged; `CreateBindingSets` is total, so the program remains usable. -/
theorem unresolved_buffer_input_binds_dummy
    (commonWidth commonHeight : Nat)
    (staticInputs : Nat → Option StaticImage)
    (passes : List ShRenderpass) (selfIndex frame : Nat)
    (node : InputNode)
    (hstatic : staticInputs node.channel = none)
    (htype : node.inputType = "buffer")
    (hunres : ∀ p ∈ passes, p.outputId ≠ node.id) :
    resolveInput commonWidth commonHeight staticInputs passes selfIndex frame node
      = ⟨.dummyTexture, (0, 0, 0), true⟩ := by
  have hfind : findBufferSource passes node.id = none := by
    rw [findBufferSource, List.findIdx?_eq_none_iff]
    intro p hp
    simpa using hunres p hp
  simp [resolveInput, hstatic, htype, hfind]

/-- Witness for C8 at concrete inputs: a single-pass program with output id
"A" and an input referencing the nonexistent id "Z". -/
theorem unresolved_buffer_input_binds_dummy_witness :
    (∀ p ∈ [ShRenderpass.mk "A" []], p.outputId ≠ (InputNode.mk 2 "buffer" "Z" "").id)
    ∧ resolveInput 640 480 (fun _ => none) [⟨"A", []⟩] 0 1
        (InputNode.mk 2 "buffer" "Z" "") = ⟨.dummyTexture, (0, 0, 0), true⟩ :=
  ⟨by decide,
   unresolved_buffer_input_binds_dummy 640 480 (fun _ => none) [⟨"A", []⟩] 0 1
     (InputNode.mk 2 "buffer" "Z" "") rfl rfl (by decide)⟩

/-- The `imagePass` local of `ShProgram::Load` is set after the node loop
exactly when some node of type `image` was seen. -/
lemma imagePass_isSome_foldl (nodes : List PassDecl) :
    ∀ st : LoadState,
    (nodes.foldl loadStep st).imagePass.isSome
      = (st.imagePass.isSome || nodes.any fun n => decide (n.declType = "image")) := by
  induction nodes with
  | nil => simp
  | cons n rest ih =>
    intro st
    rw [List.foldl_cons, ih, List.any_cons]
    by_cases h1 : n.declType = "image"
    · simp [loadStep, h1]
    · by_cases h2 : n.declType = "buffer" <;> by_cases h3 : n.declType = "common" <;>
        simp [loadStep, h1, h2, h3, Bool.or_assoc]

/-- If the node loop of `ShProgram::Load` ends with `imagePass = some p`,
then `p` was built from an `image`-type node of the list, unless it was
already set before the loop. -/
lemma imagePass_foldl_from_node (nodes : List PassDecl) :
    ∀ (st : LoadState) (p : ShRenderpass),
    (nodes.foldl loadStep st).imagePass = some p →
      (∃ n ∈ nodes, n.declType = "image" ∧ p = mkRenderpass n) ∨ st.imagePass = some p := by
  induction nodes with
  | nil => exact fun st p h => .inr h
  | cons n rest ih =>
    intro st p h
    rw [List.foldl_cons] at h
    rcases ih (loadStep st n) p h with h1 | h2
    · obtain ⟨m, hm, hmt, hp⟩ := h1
      exact .inl ⟨m, List.mem_cons_of_mem _ hm, hmt, hp⟩
    · by_cases himg : n.declType = "image"
      · left
        refine ⟨n, by simp, himg, ?_⟩
        simp [loadStep, himg] at h2
        exact h2.symm
      · right
        by_cases hbuf : n.declType = "buffer" <;> by_cases hcom : n.declType = "common" <;>
          simp [loadStep, himg, hbuf, hcom] at h2 <;> exact h2

/-- C3 counterexample: a parsed description with TWO `image`-type nodes, on
which `ShProgram::Load` nevertheless succeeds — the second `image` node
simply overwrites the `imagePass` local, so the claim that loading fails
unless there is exactly one image node is false. -/
theorem load_two_image_nodes_succeeds :
    (ShProgram.load [⟨"image", "A", [], "a.frag"⟩, ⟨"image", "B", [], "b.frag"⟩]).toOption.isSome
      = true
    ∧ List.countP (fun n => decide (n.declType = "image"))
        [(⟨"image", "A", [], "a.frag"⟩ : PassDecl), ⟨"image", "B", [], "b.frag"⟩] = 2 := by
  constructor <;> rfl

/-- C3 amended: `ShProgram::Load` succeeds if and only if the parsed
description contains AT LEAST one `image`-type node (with zero image nodes
it fails with a descriptive error); when several image nodes are present,
the last one becomes the terminal pass. -/
theorem load_succeeds_iff_some_image_node (nodes : List PassDecl) :
    (ShProgram.load nodes).toOption.isSome
      = nodes.any fun n => decide (n.declType = "image") := by
  have h := imagePass_isSome_foldl nodes ⟨[], none, none⟩
  simp only [Option.isSome_none, Bool.false_or] at h
  cases hm : (nodes.foldl loadStep ⟨[], none, none⟩).imagePass with
  | none => rw [hm] at h; simp [ShProgram.load, hm, ← h, Except.toOption]
  | some ip => rw [hm] at h; simp [ShProgram.load, hm, ← h, Except.toOption]

/-- C10: after every successful `ShProgram::Load`, the terminal pass (built
from an `image`-type node of the description) is the last element of
`m_Passes` and `m_ImagePassIndex` is the index of that last element; hence
the blit in `ShaderProj::Render` reads the composited output from pool slot
`GetImagePassIndex() * 2 + frameIndex % 2`. -/
theorem image_pass_is_last (nodes : List PassDecl) (prog : ShProgram)
    (h : ShProgram.load nodes = .ok prog) (frameIndex : Nat) :
    prog.imagePassIndex + 1 = prog.passes.length
    ∧ (∃ n ∈ nodes, n.declType = "image" ∧ prog.passes.getLast? = some (mkRenderpass n))
    ∧ finalBufferIndex prog frameIndex = prog.imagePassIndex * 2 + frameIndex % 2 := by
  cases hm : (nodes.foldl loadStep ⟨[], none, none⟩).imagePass with
  | none => simp [ShProgram.load, hm] at h
  | some ip =>
    simp only [ShProgram.load, hm, Except.ok.injEq] at h
    subst h
    refine ⟨by simp, ?_, rfl⟩
    rcases imagePass_foldl_from_node nodes ⟨[], none, none⟩ ip hm with h1 | h2
    · obtain ⟨n, hn, hnt, hp⟩ := h1
      exact ⟨n, hn, hnt, by rw [← hp, List.getLast?_append_cons]; rfl⟩
    · cases h2

/-- Witness for C10 at a concrete description: a `buffer` node followed by
an `image` node. -/
theorem image_pass_is_last_witness :
    ShProgram.load [⟨"buffer", "A", [], "a.frag"⟩, ⟨"image", "I", [], "i.frag"⟩]
      = .ok ⟨[⟨"A", []⟩, ⟨"I", []⟩], 1, none⟩
    ∧ ((⟨[⟨"A", []⟩, ⟨"I", []⟩], 1, none⟩ : ShProgram).imagePassIndex + 1
        = (⟨[⟨"A", []⟩, ⟨"I", []⟩], 1, none⟩ : ShProgram).passes.length
      ∧ (∃ n ∈ [(⟨"buffer", "A", [], "a.frag"⟩ : PassDecl), ⟨"image", "I", [], "i.frag"⟩],
          n.declType = "image"
          ∧ (⟨[⟨"A", []⟩, ⟨"I", []⟩], 1, none⟩ : ShProgram).passes.getLast?
              = some (mkRenderpass n))
      ∧ finalBufferIndex ⟨[⟨"A", []⟩, ⟨"I", []⟩], 1, none⟩ 3 = 1 * 2 + 3 % 2) :=
  ⟨rfl, image_pass_is_last [⟨"buffer", "A", [], "a.frag"⟩, ⟨"image", "I", [], "i.frag"⟩]
    ⟨[⟨"A", []⟩, ⟨"I", []⟩], 1, none⟩ rfl 3⟩

/-! ### Shader compilation and cache (`src/Compiler.cpp`) -/

/-- A file as `CompileShader` sees it: its `fs::last_write_time` and its
bytes. -/
structure FsFile where
  mtime : Nat
  contents : List Nat
deriving DecidableEq

/-- What one `CompileShader` call did: the binary it returned (`none` on
failure) and whether it actually ran the glslang compiler (as opposed to
serving the cached `.spv` artifact or failing early). -/
structure CompileResult where
  output : Option (List Nat)
  ranCompiler : Bool
deriving DecidableEq

/-- The compile path of `CompileShader`: concatenate the preamble chunks in
order, append the pass source, and hand the merged unit to glslang
(abstracted as `glslang`, returning `none` on a parse or link error). -/
def compileBody (src : FsFile) (preambles : List (List Nat))
    (glslang : List Nat → Option (List Nat)) : CompileResult :=
  let mergedSource := (preambles.foldl (fun acc p => acc ++ p) []) ++ src.contents
  match glslang mergedSource with
  | none => ⟨none, true⟩
  | some spirv => ⟨some spirv, true⟩

/-- `CompileShader` from `Compiler.cpp`: fail if the source file does not
exist; if a `.spv` artifact exists next to it with
`outputTime > inputTime`, return the artifact's bytes without compiling;
otherwise compile the merged unit. -/
def CompileShaderFn (src artifact : Option FsFile) (preambles : List (List Nat))
    (glslang : List Nat → Option (List Nat)) : CompileResult :=
  match src with
  | none => ⟨none, false⟩
  | some s =>
    match artifact with
    | some a =>
      if s.mtime < a.mtime then ⟨some a.contents, false⟩
      else compileBody s preambles glslang
    | none => compileBody s preambles glslang

/-- C4: when both the source and the artifact exist, whether `CompileShader`
runs the compiler is `decide (artifactMtime ≤ srcMtime)` — a pure function
of the two modification times, with the file contents, the preamble chunks,
and the compiler itself absent from the right-hand side; and whenever the
artifact is strictly newer, the artifact's bytes are returned unchanged
(compilation bypassed). -/
theorem cache_validity_is_mtime_only (s a : FsFile) (preambles : List (List Nat))
    (glslang : List Nat → Option (List Nat)) :
    (CompileShaderFn (some s) (some a) preambles glslang).ranCompiler
      = decide (a.mtime ≤ s.mtime)
    ∧ (s.mtime < a.mtime →
        (CompileShaderFn (some s) (some a) preambles glslang).output = some a.contents) := by
  constructor
  · by_cases h : s.mtime < a.mtime
    · simp [CompileShaderFn, h, Nat.not_le_of_lt h]
    · have h2 : a.mtime ≤ s.mtime := Nat.le_of_not_lt h
      cases hg : glslang ((preambles.foldl (fun acc p => acc ++ p) []) ++ s.contents) <;>
        simp [CompileShaderFn, compileBody, h, h2, hg]
  · intro h
    simp [CompileShaderFn, h]

/-- Witness for C4 at concrete files: source mtime 3, artifact mtime 7. -/
theorem cache_validity_is_mtime_only_witness :
    (CompileShaderFn (some ⟨3, [10]⟩) (some ⟨7, [20, 21]⟩) [[1], [2]]
        (fun _ => some [99])).ranCompiler = decide ((7 : Nat) ≤ 3)
    ∧ ((3 : Nat) < 7 ∧
        (CompileShaderFn (some ⟨3, [10]⟩) (some ⟨7, [20, 21]⟩) [[1], [2]]
            (fun _ => some [99])).output = some [20, 21]) :=
  ⟨(cache_validity_is_mtime_only ⟨3, [10]⟩ ⟨7, [20, 21]⟩ [[1], [2]] (fun _ => some [99])).1,
   by decide,
   (cache_validity_is_mtime_only ⟨3, [10]⟩ ⟨7, [20, 21]⟩ [[1], [2]] (fun _ => some [99])).2
     (by decide)⟩

/-! ### Crossfade factor (`ShaderProj::Render`, blit section) -/

/-- `transitionTime = 0.5` from the blit section of `ShaderProj::Render`;
this is the transition window of the crossfade. -/
def transitionTime : ℚ := 1 / 2

/-- The crossfade factor computed in `ShaderProj::Render`: 1 unless the
current program has a positive duration, otherwise
`min(m_CurrentTime, m_CurrentDuration - m_CurrentTime) / transitionTime`
clamped by `max(0, min(1, factor))`.  `double`/`float` arithmetic is
embedded as exact rational arithmetic. -/
def crossfadeFactor (currentTime currentDuration : ℚ) : ℚ :=
  if 0 < currentDuration then
    max 0 (min 1 (min currentTime (currentDuration - currentTime) / transitionTime))
  else 1

/-- Modelled from the spec's words only (for comparison with the code):
`clamp(x, lo, hi) = max(lo, min(x, hi))`. -/
def clampSpec (x lo hi : ℚ) : ℚ :=
  max lo (min x hi)

/-- C5: for elapsed time `t` and duration `D > 0` the crossfade factor
equals `clamp(min(t, D - t) / transitionTime, 0, 1)`; it always lies in
`[0, 1]`; and it equals 1 for every `t` strictly inside
`(transitionTime, D - transitionTime)` (an interval that is nonempty
exactly when `D > 2 * transitionTime`). -/
theorem crossfade_factor_clamped (t D : ℚ) (hD : 0 < D) :
    crossfadeFactor t D = clampSpec (min t (D - t) / transitionTime) 0 1
    ∧ 0 ≤ crossfadeFactor t D
    ∧ crossfadeFactor t D ≤ 1
    ∧ (transitionTime < t → t < D - transitionTime → crossfadeFactor t D = 1) := by
  rw [crossfadeFactor, if_pos hD]
  refine ⟨by rw [clampSpec, min_comm], le_max_left 0 _,
    max_le (by norm_num) (min_le_left 1 _), fun h1 h2 => ?_⟩
  have hmin : transitionTime < min t (D - t) := lt_min h1 (by linarith)
  have hq : (1 : ℚ) ≤ min t (D - t) / transitionTime := by
    rw [le_div_iff₀ (by norm_num [transitionTime] : (0 : ℚ) < transitionTime)]
    rw [transitionTime] at hmin ⊢
    linarith
  rw [min_eq_left hq, max_eq_right (by norm_num)]

/-- Witness for C5 at `t = 1`, `D = 3`. -/
theorem crossfade_factor_clamped_witness :
    (0 : ℚ) < 3
    ∧ (crossfadeFactor 1 3 = clampSpec (min 1 ((3 : ℚ) - 1) / transitionTime) 0 1
      ∧ 0 ≤ crossfadeFactor 1 3
      ∧ crossfadeFactor 1 3 ≤ 1
      ∧ (transitionTime < 1 → (1 : ℚ) < 3 - transitionTime → crossfadeFactor 1 3 = 1)) :=
  ⟨by norm_num, crossfade_factor_clamped 1 3 (by norm_num)⟩

/-! ### Script loading and playlist (`src/ShaderProj.cpp`) -/

/-- `struct ScriptEntry` from `ShaderProj.h`, with its field defaults
`programIndex = -1` and `duration = 1.0`. -/
structure ScriptEntry where
  programName : String
  programIndex : Int
  duration : ℚ
deriving DecidableEq

/-- One parsed JSON array element of a script file, as `LoadScript`
distinguishes them: a bare string, an object with `program` and an optional
numeric `duration`, or anything else. -/
inductive ScriptNode where
  | str (s : String)
  | obj (program : String) (duration : Option ℚ)
  | other
deriving DecidableEq

/-- The loop body of `LoadScript`: a string node names a program and keeps
the default duration 1.0, an object node reads `program` and, when numeric,
`duration`; any other node is skipped. -/
def scriptNodeEntry : ScriptNode → Option ScriptEntry
  | .str s => some ⟨s, -1, 1⟩
  | .obj p d => some ⟨p, -1, d.getD 1⟩
  | .other => none

/-- `LoadScript` from `ShaderProj.cpp`, applied to the parsed array: collect
the valid entries and fail if none were found. -/
def LoadScript (nodes : List ScriptNode) : Option (List ScriptEntry) :=
  let script := nodes.filterMap scriptNodeEntry
  if script.isEmpty then none else some script

/-- The linear program search in `ShaderProj::SetScript`: the index of the
first loaded program with the given name, `-1` if absent. -/
def findProgramIndex (programs : List String) (name : String) : Int :=
  match programs.findIdx? (fun p => p = name) with
  | some i => Int.ofNat i
  | none => -1

/-- The playlist-related state of `ShaderProj` (`ShaderProj.h` field
defaults: `m_ScriptIndex = 0`, `m_CurrentTime = 0`, `m_FrameIndex = 0`,
`m_ResetRequired = true`, `m_Paused = false`). -/
structure ProjState where
  script : List ScriptEntry
  scriptIndex : Nat
  activeProgram : Int
  currentDuration : ℚ
  currentTime : ℚ
  frameIndex : Nat
  resetRequired : Bool
  paused : Bool
deriving DecidableEq

/-- `ShaderProj::SetScript`: scale each entry's duration by `baseInterval`,
resolve its program index, skip entries whose program was not loaded, fail
if nothing remains, and otherwise select entry 0. -/
def SetScript (programs : List String) (script : List ScriptEntry)
    (baseInterval : ℚ) : Option ProjState :=
  let resolved := script.filterMap fun e0 =>
    let e : ScriptEntry :=
      ⟨e0.programName, findProgramIndex programs e0.programName, e0.duration * baseInterval⟩
    if e.programIndex < 0 then none else some e
  match resolved with
  | [] => none
  | e0 :: rest =>
    some ⟨e0 :: rest, 0, e0.programIndex, e0.duration, 0, 0, true, false⟩

/-- `ShaderProj::NextProgram`: advance the script index circularly, adopt
the new entry's program and duration, and request a reset. -/
def NextProgram (s : ProjState) : ProjState :=
  if s.script.isEmpty then s
  else
    let idx := (s.scriptIndex + 1) % s.script.length
    let entry := s.script.getD idx ⟨"", -1, 1⟩
    { s with scriptIndex := idx, activeProgram := entry.programIndex,
             currentDuration := entry.duration, resetRequired := true }

/-- `ShaderProj::Animate`: unless paused, accumulate elapsed time and move
to the next entry once the current entry's positive duration is exceeded. -/
def Animate (s : ProjState) (fElapsedTimeSeconds : ℚ) : ProjState :=
  if s.paused then s
  else
    let s1 := { s with currentTime := s.currentTime + fElapsedTimeSeconds }
    if 0 < s1.currentDuration ∧ s1.currentDuration < s1.currentTime then NextProgram s1
    else s1

/-- The time-keeping part of `ShaderProj::Render`: when a reset is pending,
zero the frame index and the elapsed time; the frame index is incremented
at the end of the frame. -/
def RenderTimeUpdate (s : ProjState) : ProjState :=
  let s1 := if s.resetRequired then
    { s with frameIndex := 0, currentTime := 0, resetRequired := false }
  else s
  { s1 with frameIndex := s1.frameIndex + 1 }

/-- The script of the C6 scenario: `["foo", {"program":"bar","duration":5}]`. -/
def c6Nodes : List ScriptNode := [.str "foo", .obj "bar" (some 5)]

/-- The loaded programs of the C6 scenario. -/
def c6Programs : List String := ["foo", "bar"]

/-- The state after loading the C6 script with interval multiplier 2. -/
def c6State0 : ProjState :=
  ((LoadScript c6Nodes).bind fun sc => SetScript c6Programs sc 2).getD
    ⟨[], 0, -1, 0, 0, 0, false, false⟩

/-- The C6 state after the first rendered frame of entry 0. -/
def c6State1 : ProjState := RenderTimeUpdate c6State0

/-- The C6 state after `Animate(2.1)` overruns entry 0's duration 2.0. -/
def c6State2 : ProjState := Animate c6State1 (21 / 10)

/-- The C6 state after the next rendered frame, which performs the pending
reset. -/
def c6State3 : ProjState := RenderTimeUpdate c6State2

/-- The computed value of each C6 scenario state. -/
lemma c6State0_eq :
    c6State0 = ⟨[⟨"foo", 0, 2⟩, ⟨"bar", 1, 10⟩], 0, 0, 2, 0, 0, true, false⟩ := by
  have h1 : LoadScript c6Nodes = some [⟨"foo", -1, 1⟩, ⟨"bar", -1, 5⟩] := by decide
  rw [c6State0, h1]
  norm_num [SetScript, findProgramIndex, c6Programs, List.filterMap_cons, List.findIdx?]
  decide

/-- The C6 state after the first rendered frame, computed. -/
lemma c6State1_eq :
    c6State1 = ⟨[⟨"foo", 0, 2⟩, ⟨"bar", 1, 10⟩], 0, 0, 2, 0, 1, false, false⟩ := by
  rw [c6State1, c6State0_eq]; decide

/-- The C6 state after `Animate(2.1)`, computed: the selection has moved to
entry 1 and a reset is pending, while the uncommitted elapsed time still
reads 2.1. -/
lemma c6State2_eq :
    c6State2 = ⟨[⟨"foo", 0, 2⟩, ⟨"bar", 1, 10⟩], 1, 1, 10, 21 / 10, 1, true, false⟩ := by
  rw [c6State2, c6State1_eq]
  norm_num [Animate, NextProgram]

/-- The C6 state after the next rendered frame, computed: the pending reset
zeroes the elapsed time. -/
lemma c6State3_eq :
    c6State3 = ⟨[⟨"foo", 0, 2⟩, ⟨"bar", 1, 10⟩], 1, 1, 10, 0, 1, false, false⟩ := by
  rw [c6State3, c6State2_eq]; decide

/-- C6 counterexample: in the scenario of the claim, advancing by 2.1 does
move the selection from entry 0 to entry 1, but the elapsed time within the
new entry is reset to exactly 0 when the next frame renders — it is not
approximately 0.1 (it does not even lie in the interval (0.05, 0.15)). -/
theorem advance_resets_elapsed_to_zero :
    c6State2.scriptIndex = 1
    ∧ c6State3.currentTime = 0
    ∧ ¬ (1 / 20 < c6State3.currentTime ∧ c6State3.currentTime < 3 / 20) := by
  rw [c6State2_eq, c6State3_eq]
  norm_num

/-- C6 amended: loading the script `["foo", {"program":"bar","duration":5}]`
with interval multiplier 2 yields two playlist entries with durations 2.0
and 10.0; advancing by elapsed time 2.1 while entry 0 is active moves the
selection from entry 0 to entry 1 (adopting duration 10.0), and the elapsed
time within the new entry is reset to 0 on the next rendered frame, the
overshoot being discarded. -/
theorem script_load_and_advance :
    c6State0.script.map (fun e => e.duration) = [2, 10]
    ∧ c6State0.scriptIndex = 0
    ∧ c6State1.scriptIndex = 0
    ∧ c6State2.scriptIndex = 1
    ∧ c6State2.currentDuration = 10
    ∧ c6State2.resetRequired = true
    ∧ c6State3.currentTime = 0 := by
  rw [c6State0_eq, c6State1_eq, c6State2_eq, c6State3_eq]
  norm_num

/-! ### Committed resource creation (`src/Buffer.cpp`, `src/Image.cpp`) -/

/-- Whether each fallible device call inside `CreateCommittedBuffer` /
`CreateCommittedImage` succeeds on this attempt: `vkCreateBuffer` /
`vkCreateImage`, `vkAllocateMemory`, `vkBindBufferMemory` /
`vkBindImageMemory`, and `vkCreateImageView`.  A handle is embedded as
`Bool` — `true` means non-null. -/
structure DeviceOutcome where
  createOk : Bool
  allocOk : Bool
  bindOk : Bool
  viewOk : Bool
deriving DecidableEq

/-- `struct Buffer` from `ShaderProj.h`: the two device handles, embedded as
null/non-null flags. -/
structure BufferRes where
  deviceMemory : Bool
  buffer : Bool
deriving DecidableEq

/-- `CreateCommittedBuffer` from `Buffer.cpp`: a default `Buffer` (all
handles null) is filled step by step, and the function returns early —
with whatever handles are already set — as soon as the creation or
allocation step yields a null handle.  The result of the final
`device.bindBufferMemory` call (`Buffer.cpp:61`) is DISCARDED: `bindOk`
does not influence the returned struct. -/
def CreateCommittedBuffer (dev : DeviceOutcome) : BufferRes :=
  let b1 : BufferRes := ⟨false, dev.createOk⟩
  if !b1.buffer then b1
  else
    let b2 : BufferRes := ⟨dev.allocOk, b1.buffer⟩
    if !b2.deviceMemory then b2
    else b2

/-- `struct Image` from `ShaderProj.h`: three device handles (as null/
non-null flags) and the recorded extents. -/
structure ImageRes where
  deviceMemory : Bool
  image : Bool
  imageView : Bool
  width : Nat
  height : Nat
  depth : Nat
deriving DecidableEq

/-- `CreateCommittedImage` from `Image.cpp`: a default `Image` (all handles
null, extents zero) is filled step by step with early returns after the
image-creation and memory-allocation steps; the result of the
`device.bindImageMemory` call (`Image.cpp:353`) is DISCARDED (`bindOk`
does not influence the returned struct); the view-creation result is
stored without being checked, and the extents are copied from the create
info at the end of the full path. -/
def CreateCommittedImage (dev : DeviceOutcome) (w h d : Nat) : ImageRes :=
  let i1 : ImageRes := ⟨false, dev.createOk, false, 0, 0, 0⟩
  if !i1.image then i1
  else
    let i2 : ImageRes := ⟨dev.allocOk, i1.image, false, 0, 0, 0⟩
    if !i2.deviceMemory then i2
    else ⟨i2.deviceMemory, i2.image, dev.viewOk, w, h, d⟩

/-- C7 counterexample: the claim fails at two steps.  When object creation
succeeds but memory allocation fails, the returned resource's object handle
is still NON-null (only the memory handle is null), so it is not a
null-handle resource — and the `!buffer.buffer` / `!image.image` checks
used by callers do not detect the failure.  When memory binding fails, the
discarded result makes the returned resource IDENTICAL to the
fully-successful one (every handle non-null): creation partially succeeds
silently. -/
theorem creation_failure_keeps_handles :
    (CreateCommittedBuffer ⟨true, false, true, true⟩).buffer = true
    ∧ (CreateCommittedBuffer ⟨true, false, true, true⟩).deviceMemory = false
    ∧ (CreateCommittedImage ⟨true, false, true, true⟩ 4 4 1).image = true
    ∧ (CreateCommittedImage ⟨true, false, true, true⟩ 4 4 1).deviceMemory = false
    ∧ CreateCommittedBuffer ⟨true, true, false, true⟩
        = CreateCommittedBuffer ⟨true, true, true, true⟩
    ∧ (CreateCommittedBuffer ⟨true, true, false, true⟩).buffer = true
    ∧ (CreateCommittedBuffer ⟨true, true, false, true⟩).deviceMemory = true
    ∧ CreateCommittedImage ⟨true, true, false, true⟩ 4 4 1
        = CreateCommittedImage ⟨true, true, true, true⟩ 4 4 1 := by
  decide

/-- C7 amended: if the object-creation step fails, `CreateCommittedBuffer`
and `CreateCommittedImage` return a resource with all device handles null;
if object creation succeeds but memory allocation fails, the returned
resource has a null memory handle (and, for images, a null view and zero
extents) while the object handle remains non-null; and once creation and
allocation have succeeded the returned resource is independent of the
memory-binding outcome, whose result the code discards — so a binding
failure (and, for images, a view-creation failure, which only nulls the
view) partially succeeds silently, and only object-creation failure is
detectable through the callers' null-object-handle checks. -/
theorem failed_step_leaves_null_handle (dev : DeviceOutcome) (w h d : Nat) :
    (¬ dev.createOk →
        CreateCommittedBuffer dev = ⟨false, false⟩
        ∧ CreateCommittedImage dev w h d = ⟨false, false, false, 0, 0, 0⟩)
    ∧ (dev.createOk → ¬ dev.allocOk →
        CreateCommittedBuffer dev = ⟨false, true⟩
        ∧ CreateCommittedImage dev w h d = ⟨false, true, false, 0, 0, 0⟩)
    ∧ (dev.createOk → dev.allocOk →
        CreateCommittedBuffer dev = ⟨true, true⟩
        ∧ CreateCommittedImage dev w h d = ⟨true, true, dev.viewOk, w, h, d⟩) := by
  rcases dev with ⟨c, a, bi, v⟩
  cases c <;> cases a <;> cases bi <;> cases v <;>
    simp [CreateCommittedBuffer, CreateCommittedImage]

/-- Witness for C7 (amended): the allocation-failure case at a device where
binding would succeed, and the bind-failure case, whose result equals full
success. -/
theorem failed_step_leaves_null_handle_witness :
    (CreateCommittedBuffer ⟨true, false, true, true⟩ = ⟨false, true⟩
      ∧ CreateCommittedImage ⟨true, false, true, true⟩ 2 2 1 = ⟨false, true, false, 0, 0, 0⟩)
    ∧ (CreateCommittedBuffer ⟨true, true, false, true⟩ = ⟨true, true⟩
      ∧ CreateCommittedImage ⟨true, true, false, true⟩ 2 2 1 = ⟨true, true, true, 2, 2, 1⟩) :=
  ⟨(failed_step_leaves_null_handle ⟨true, false, true, true⟩ 2 2 1).2.1
      (by decide) (by decide),
   (failed_step_leaves_null_handle ⟨true, true, false, true⟩ 2 2 1).2.2
      (by decide) (by decide)⟩

/-! ### Swap-chain layout tracking (`ShaderProj::Render`,
`ShaderProj::CreateBuffersAndBindings`) -/

/-- The `m_SwapChainLayoutInitd` vector of `ShaderProj`: one flag per
swap-chain image slot. -/
structure SwapChainState where
  swapChainLayoutInitd : List Bool
deriving DecidableEq

/-- `CreateBuffersAndBindings` clears and re-creates
`m_SwapChainLayoutInitd` with one `false` entry per swap-chain image. -/
def initSwapChainState (imageCount : Nat) : SwapChainState :=
  ⟨List.replicate imageCount false⟩

/-- The before-state of the barrier emitted in the blit section of `Render`
for the acquired swap-chain slot:
`m_SwapChainLayoutInitd[swapChainIndex] ? ImageState::Present :
ImageState::Undefined`. -/
def blitBarrierBefore (s : SwapChainState) (slot : Nat) : ImageState :=
  if s.swapChainLayoutInitd.getD slot false then .Present else .Undefined

/-- The events that touch `m_SwapChainLayoutInitd`: a (re)creation of the
swap-chain buffers, or a frame compositing into an acquired slot (which
sets the slot's flag right after emitting the barrier). -/
inductive FrameEvent where
  | recreate (imageCount : Nat)
  | composite (slot : Nat)
deriving DecidableEq

/-- The effect of one event on the tracked swap-chain state. -/
def stepEvent (s : SwapChainState) : FrameEvent → SwapChainState
  | .recreate n => initSwapChainState n
  | .composite slot => ⟨s.swapChainLayoutInitd.set slot true⟩

/-- Replay a sequence of events. -/
def runEvents (s : SwapChainState) (events : List FrameEvent) : SwapChainState :=
  events.foldl stepEvent s

/-- A trace is valid when every composited slot index is within the current
swap-chain image count — which holds in the program because the composited
slot is the acquired swap-chain index. -/
def eventsValid : Nat → List FrameEvent → Bool
  | _, [] => true
  | _, .recreate m :: rest => eventsValid m rest
  | n, .composite slot :: rest => decide (slot < n) && eventsValid n rest

/-- Whether `slot` has been composited since the last (re)creation, the
accumulator carrying whether it was already composited before these
events. -/
def compositedSince (events : List FrameEvent) (slot : Nat) (acc : Bool) : Bool :=
  match events with
  | [] => acc
  | .recreate _ :: rest => compositedSince rest slot false
  | .composite s :: rest => compositedSince rest slot (acc || decide (s = slot))

/-- `(List.replicate n false).getD slot false` is `false`. -/
lemma getD_replicate_false (n slot : Nat) :
    (List.replicate n false).getD slot false = false := by
  induction n generalizing slot with
  | zero => rfl
  | succ m ih =>
    cases slot with
    | zero => rfl
    | succ k => exact ih k

/-- Setting an in-bounds index of a Boolean list to `true` turns its `getD`
reading into a disjunction. -/
lemma getD_set_true (l : List Bool) (t slot : Nat) (ht : t < l.length) :
    (l.set t true).getD slot false = (decide (t = slot) || l.getD slot false) := by
  induction l generalizing t slot with
  | nil => simp at ht
  | cons a rest ih =>
    cases t with
    | zero => cases slot <;> simp
    | succ tk =>
      cases slot with
      | zero => simp
      | succ sk =>
        have h2 : tk < rest.length := by simpa using ht
        simpa using ih tk sk h2

/-- `runEvents` preserves the swap-chain image count established by the
last (re)creation. -/
lemma length_runEvents (events : List FrameEvent) (s : SwapChainState) :
    (runEvents s events).swapChainLayoutInitd.length
      = events.foldl (fun n e => match e with | .recreate m => m | .composite _ => n)
          s.swapChainLayoutInitd.length := by
  induction events generalizing s with
  | nil => rfl
  | cons e rest ih =>
    cases e with
    | recreate m =>
      rw [runEvents, List.foldl_cons, List.foldl_cons, ← runEvents, ih]
      simp [stepEvent, initSwapChainState]
    | composite t =>
      rw [runEvents, List.foldl_cons, List.foldl_cons, ← runEvents, ih]
      simp [stepEvent]

/-- The recorded flag of a slot after replaying a valid trace is exactly
"composited since the last (re)creation". -/
lemma getD_runEvents (events : List FrameEvent) (s : SwapChainState) (slot : Nat)
    (hv : eventsValid s.swapChainLayoutInitd.length events = true) :
    (runEvents s events).swapChainLayoutInitd.getD slot false
      = compositedSince events slot (s.swapChainLayoutInitd.getD slot false) := by
  induction events generalizing s with
  | nil => rfl
  | cons e rest ih =>
    cases e with
    | recreate m =>
      rw [runEvents, List.foldl_cons, ← runEvents, compositedSince]
      rw [eventsValid] at hv
      have hlen : (stepEvent s (.recreate m)).swapChainLayoutInitd.length = m := by
        simp [stepEvent, initSwapChainState]
      have := ih (stepEvent s (.recreate m)) (by rw [hlen]; exact hv)
      rw [this]
      simp [stepEvent, initSwapChainState, getD_replicate_false]
    | composite t =>
      rw [eventsValid, Bool.and_eq_true] at hv
      have ht : t < s.swapChainLayoutInitd.length := of_decide_eq_true hv.1
      have harg : (s.swapChainLayoutInitd.set t true).getD slot false
          = (s.swapChainLayoutInitd.getD slot false || decide (t = slot)) := by
        rw [getD_set_true _ _ _ ht, Bool.or_comm]
      have hval : eventsValid
          ((⟨s.swapChainLayoutInitd.set t true⟩ : SwapChainState)).swapChainLayoutInitd.length
            rest = true := by
        simpa using hv.2
      exact (ih ⟨s.swapChainLayoutInitd.set t true⟩ hval).trans
        (congrArg (compositedSince rest slot) harg)

/-- C9: for every valid event trace starting from freshly (re)created
swap-chain buffers, the before-state of the barrier emitted when
compositing into a slot is `Present` exactly when that slot has been
composited at least once since the last (re)creation, and `Undefined`
otherwise — so the first frame rendering to a slot after (re)creation uses
`Undefined`, every subsequent frame uses `Present`, and a slot is never
transitioned from `Present` before it has been composited. -/
theorem swapchain_barrier_state (imageCount : Nat) (events : List FrameEvent)
    (slot : Nat) (hv : eventsValid imageCount events = true) :
    blitBarrierBefore (runEvents (initSwapChainState imageCount) events) slot
      = (if compositedSince events slot false then ImageState.Present
         else ImageState.Undefined) := by
  have hlen : (initSwapChainState imageCount).swapChainLayoutInitd.length = imageCount := by
    simp [initSwapChainState]
  have h := getD_runEvents events (initSwapChainState imageCount) slot (by rw [hlen]; exact hv)
  rw [blitBarrierBefore, h, initSwapChainState, getD_replicate_false]

/-- Witness for C9: two swap-chain images, compositing slots 0, 1, 0; the
third compositing of slot 0 sees `Present`, while slot 1 after a re-creation
would see `Undefined`. -/
theorem swapchain_barrier_state_witness :
    eventsValid 2 [.composite 0, .composite 1, .composite 0] = true
    ∧ blitBarrierBefore
        (runEvents (initSwapChainState 2) [.composite 0, .composite 1, .composite 0]) 0
      = (if compositedSince [.composite 0, .composite 1, .composite 0] 0 false
         then ImageState.Present else ImageState.Undefined) :=
  ⟨by decide,
   swapchain_barrier_state 2 [.composite 0, .composite 1, .composite 0] 0 (by decide)⟩
